import Mathlib

/- Verification development for `drakcore/ipt_disasm.py`: the fault-to-frame
resolution engine, the decoder-invocation manifest builder, and the two
trace-output normalizers.  Python strings are modelled as Lean `String`s and
all string operations are carried out on the underlying character lists so
that every definition evaluates by kernel reduction.  Machine integers are
modelled as `Nat` (the Python values involved are non-negative and Python
integers are unbounded, so no wrap-around modelling is needed). -/

set_option maxRecDepth 8192

namespace IptDisasm

/-- Modelled from the spec: `page_align` lives in the absent `ipt_utils.py`;
per the glossary, page alignment is "truncation of an address to its
containing 4096-byte page boundary". -/
def page_align (x : Nat) : Nat := x / 4096 * 4096

/-- Modelled from the spec: `is_page_aligned` lives in the absent
`ipt_utils.py`; an address is page aligned when it is a multiple of 4096. -/
def is_page_aligned (x : Nat) : Bool := x % 4096 == 0

/-- One record of `codemon.log`.  The fields mirror the spec data model
(`FaultEvent` / `FrameEvent`: virtual address, physical address, process
identity, dump file); `eventType` is the classification tag read as
`obj["EventType"]` and `dumpFile` is read as `frame["DumpFile"]` in
`ipt_disasm.py`. -/
structure LogEvent where
  eventType : String
  cr3 : Nat
  va : Nat
  pa : Nat
  dumpFile : String
  deriving DecidableEq, Repr

/-- Modelled from the spec: accessor `get_fault_va` of the absent
`ipt_utils.py` (virtual address of a `FaultEvent`). -/
def get_fault_va (e : LogEvent) : Nat := e.va

/-- Modelled from the spec: accessor `get_fault_pa` of the absent
`ipt_utils.py` (physical address of a `FaultEvent`). -/
def get_fault_pa (e : LogEvent) : Nat := e.pa

/-- Modelled from the spec: accessor `get_frame_va` of the absent
`ipt_utils.py` (virtual address of a `FrameEvent`). -/
def get_frame_va (e : LogEvent) : Nat := e.va

/-- Modelled from the spec: accessor `get_trap_pa` of the absent
`ipt_utils.py` (physical address of a `FrameEvent`). -/
def get_trap_pa (e : LogEvent) : Nat := e.pa

/-- Modelled from the spec: `select_cr3` of the absent `ipt_utils.py`,
used in `ipt_disasm.py` as `select_cr3(lambda cr3: ..., events)`:
keep the events whose process identity satisfies the predicate. -/
def select_cr3 (pred : Nat → Bool) (events : List LogEvent) : List LogEvent :=
  events.filter (fun e => pred e.cr3)

/-- `build_frame_va_map` of `ipt_disasm.py`: the `defaultdict(list)` that
groups frames by page-aligned virtual address is modelled as the function
sending a page address to the insertion-ordered sub-list of frames whose
page-aligned virtual address equals it (a missing key yields `[]`, exactly
as `defaultdict` does on lookup). -/
def build_frame_va_map (frames : List LogEvent) : Nat → List LogEvent :=
  fun addr => frames.filter (fun frame => page_align (get_frame_va frame) == addr)

/-- `select_frame` of `ipt_disasm.py`: linear scan returning the first frame
whose page-aligned physical address equals `phys_addr`, else `None`. -/
def select_frame : List LogEvent → Nat → Option LogEvent
  | [], _ => none
  | frame :: rest, phys_addr =>
    if phys_addr == page_align (get_trap_pa frame) then some frame
    else select_frame rest phys_addr

/-- Result of `match_frames`: the `results` list plus the two diagnostic
counters kept by the loop. -/
structure MatchResult where
  results : List (Nat × String)
  unresolved : Nat
  foreign_resolved : Nat
  deriving DecidableEq, Repr

/-- The per-fault loop of `match_frames` in `ipt_disasm.py`, with the two
frame maps already built.  For each fault: page-align its addresses, try the
own-process map, fall back to the foreign map (counting `foreign_resolved`),
count `unresolved` and emit no entry when both fail. -/
def match_frames_loop (frame_map foreign_frame_map : Nat → List LogEvent) :
    List LogEvent → MatchResult
  | [] => ⟨[], 0, 0⟩
  | fault :: rest =>
    let va_page := page_align (get_fault_va fault)
    let pa_page := page_align (get_fault_pa fault)
    let r := match_frames_loop frame_map foreign_frame_map rest
    match select_frame (frame_map va_page) pa_page with
    | some frame => ⟨(va_page, frame.dumpFile) :: r.results, r.unresolved, r.foreign_resolved⟩
    | none =>
      match select_frame (foreign_frame_map va_page) pa_page with
      | some frame =>
        ⟨(va_page, frame.dumpFile) :: r.results, r.unresolved, r.foreign_resolved + 1⟩
      | none => ⟨r.results, r.unresolved + 1, r.foreign_resolved⟩

/-- `match_frames` of `ipt_disasm.py` (logging elided): build the two
virtual-address maps and run the resolution loop. -/
def match_frames (page_faults frames foreign_frames : List LogEvent) : MatchResult :=
  match_frames_loop (build_frame_va_map frames) (build_frame_va_map foreign_frames) page_faults

/-- Python `Path(fname).name` for the forward-slash paths appearing in the
dump-file fields: the final path component (text after the last slash). -/
def basenameAux : List Char → List Char → List Char
  | acc, [] => acc
  | acc, c :: rest => if c = '/' then basenameAux [] rest else basenameAux (acc ++ [c]) rest

/-- Basename of a dump-file field, modelling `Path(fname).name`. -/
def pathName (fname : String) : String := ⟨basenameAux [] fname.data⟩

/-- Python `hex`-style lowercase hexadecimal rendering of a `Nat`
(without the `0x` marker), as produced by the format `{addr:x}`. -/
def natToHex (n : Nat) : String := ⟨Nat.toDigits 16 n⟩

/-- The string `f"{fpath}:0x{addr:x}"` built in `get_ptxed_cmdline`, where
`fpath` is `analysis_dir / "ipt" / "dumps" / name`. -/
def raw_page_arg (analysis_dir fname : String) (addr : Nat) : String :=
  analysis_dir ++ "/ipt/dumps/" ++ pathName fname ++ ":0x" ++ natToHex addr

/-- The warning text `f"Missing {fpath}"` logged in `get_ptxed_cmdline`. -/
def missing_warning (analysis_dir fname : String) : String :=
  "Missing " ++ analysis_dir ++ "/ipt/dumps/" ++ pathName fname

/-- The manifest-building loop of `get_ptxed_cmdline` (source lines 123-133).
The dump directory is modelled as `fs : String → Option Nat`, sending a file
basename to its size when the file exists (`fpath.exists()` is `isSome`,
`fpath.stat().st_size` is the value).  Returns the `pages` argument list
together with the list of emitted `Missing ...` warnings. -/
def build_pages (analysis_dir : String) (fs : String → Option Nat) :
    List (Nat × String) → List String × List String
  | [] => ([], [])
  | (addr, fname) :: rest =>
    let name := pathName fname
    let r := build_pages analysis_dir fs rest
    match fs name with
    | none => (r.1, missing_warning analysis_dir fname :: r.2)
    | some size =>
      if name ≠ "(null)" ∧ size = 4096 then
        ( "--raw" :: raw_page_arg analysis_dir fname addr :: r.1, r.2)
      else
        r

/-- `get_ptxed_cmdline` of `ipt_disasm.py` (logging and `debug_faults`
elided; both are pure diagnostics).  `codemon_out` stands for the records
loaded by `load_drakvuf_output(analysis_dir / "codemon.log")` and `fs` for
the dump directory, as in `build_pages`.  The Python function implicitly
returns `None` when the CR3 value is not page aligned, modelled by
`Option`. -/
def get_ptxed_cmdline (analysis_dir : String) (cr3_value : Nat) (pt_stream : String)
    (use_blocks : Bool) (codemon_out : List LogEvent) (fs : String → Option Nat) :
    Option (List String) :=
  if !(is_page_aligned cr3_value) then none
  else
    let page_faults := codemon_out.filter (fun obj => obj.eventType == "pagefault")
    let executed_frames := codemon_out.filter (fun obj => obj.eventType == "execframe")
    let faults_in_process := select_cr3 (fun cr3 => cr3 == cr3_value) page_faults
    let frames_in_process := select_cr3 (fun cr3 => cr3 == cr3_value) executed_frames
    let frames_out_process := select_cr3 (fun cr3 => cr3 != cr3_value) executed_frames
    let faults_sorted :=
      faults_in_process.mergeSort (fun a b => decide (get_fault_va a ≤ get_fault_va b))
    let mappings := (match_frames faults_sorted frames_in_process frames_out_process).results
    let pages := (build_pages analysis_dir fs mappings).1
    let binary :=
      if use_blocks then [ "drak-ipt-blocks", "--cr3", "0x" ++ natToHex cr3_value]
      else [ "ptxed", "--block-decoder", "--block:show-blocks"]
    some (binary ++ pages ++ [ "--pt", pt_stream])

/-- Value of one hexadecimal digit, as accepted by Python `int(s, 16)`. -/
def hexDigitVal (c : Char) : Option Nat :=
  if '0' ≤ c ∧ c ≤ '9' then some (c.toNat - Char.toNat '0')
  else if 'a' ≤ c ∧ c ≤ 'f' then some (c.toNat - Char.toNat 'a' + 10)
  else if 'A' ≤ c ∧ c ≤ 'F' then some (c.toNat - Char.toNat 'A' + 10)
  else none

/-- Accumulating hexadecimal parse; `none` once a non-digit is seen. -/
def parseHexCore : Option Nat → List Char → Option Nat
  | acc, [] => acc
  | acc, c :: rest =>
    match acc, hexDigitVal c with
    | some a, some d => parseHexCore (some (a * 16 + d)) rest
    | _, _ => none

/-- Python `int(s, 16)` restricted to plain strings of hexadecimal digits
(the shapes arising in `ipt_disasm.py`); `none` models the `ValueError`
raised on an empty or non-hexadecimal string. -/
def parseHexNat (s : String) : Option Nat :=
  if s.data = [] then none else parseHexCore (some 0) s.data

/-- One record of the structured (Format A) decoder output consumed by
`generate_ipt_blocks`: the line already parsed by `json.loads`, with its
`event` tag and `data` field. -/
structure BlockRecord where
  event : String
  data : String
  deriving DecidableEq, Repr

/-- `generate_ipt_blocks` of `ipt_disasm.py` over an already-parsed record
stream: yield `int(entry["data"], 16)` for each record tagged
`block_executed`, skip every other record.  The overall `Option` models the
`ValueError` that `int` would raise on a non-hexadecimal data field. -/
def generate_ipt_blocks : List BlockRecord → Option (List Nat)
  | [] => some []
  | entry :: rest =>
    if entry.event == "block_executed" then
      match parseHexNat entry.data with
      | none => none
      | some v => (generate_ipt_blocks rest).map (fun l => v :: l)
    else generate_ipt_blocks rest

/-- The character set `"0123456789abcdef"` tested by `generate_ptxed`. -/
def hexCharsLower : List Char := "0123456789abcdef".data

/-- Membership test `c in "0123456789abcdef"` from `generate_ptxed`. -/
def isLowerHexDigit (c : Char) : Bool := hexCharsLower.contains c

/-- Python slicing `line[:16]` (on the decoded text of the line). -/
def pyTake (s : String) (n : Nat) : String := ⟨s.data.take n⟩

/-- Python `line.strip()`: whitespace removed from both ends. -/
def pyStrip (s : String) : String :=
  ⟨((s.data.dropWhile Char.isWhitespace).reverse.dropWhile Char.isWhitespace).reverse⟩

/-- The bracketed annotation cues consumed (with `continue`) by
`generate_ptxed`. -/
def bracketCues : List String :=
  [ "[cbr", "[ptwrite", "[enabled", "[disabled", "[resumed", "[exec mode"]

/-- Test whether the line starts with one of the bracketed annotation
cues (`line.startswith(...)` in `generate_ptxed`). -/
def startsWithCue (line : String) : Bool :=
  bracketCues.any (fun cue => cue.data.isPrefixOf line.data)

/-- The guard of the yield in `generate_ptxed`:
`prev_block and all(c in "0123456789abcdef" for c in line[:16])`. -/
def line_yields (prev_block : Bool) (line : String) : Bool :=
  prev_block && (pyTake line 16).data.all isLowerHexDigit

/-- The value of `prev_block` after one iteration of the `generate_ptxed`
loop body: cleared by a successful yield, set by a stripped `[block]` line,
otherwise left unchanged (the bracketed-cue `continue`s skip the `[block]`
test without touching the flag). -/
def ptxed_next_flag (prev_block : Bool) (line : String) : Bool :=
  let afterYield := if line_yields prev_block line then false else prev_block
  if startsWithCue line then afterYield
  else if pyStrip line = "[block]" then true
  else afterYield

/-- `generate_ptxed` of `ipt_disasm.py` from a given initial `prev_block`
flag, over the decoded text lines of the decoder output.  When the guard
holds, `int(line[:16], 16)` is yielded; `parseHexNat` returning `none`
there (only possible for an empty line) models the `ValueError` raised by
`int(b"", 16)`. -/
def generate_ptxed_from (prev_block : Bool) : List String → Option (List Nat)
  | [] => some []
  | line :: rest =>
    let tail := generate_ptxed_from (ptxed_next_flag prev_block line) rest
    if line_yields prev_block line then
      match parseHexNat (pyTake line 16) with
      | none => none
      | some v => tail.map (fun l => v :: l)
    else tail

/-- `generate_ptxed` of `ipt_disasm.py`: the loop starts with
`prev_block = False`. -/
def generate_ptxed (lines : List String) : Option (List Nat) :=
  generate_ptxed_from false lines

/- ------------------------------------------------------------------ -/
/- Helper lemmas                                                      -/
/- ------------------------------------------------------------------ -/

lemma select_frame_eq_find (l : List LogEvent) (pa : Nat) :
    select_frame l pa = l.find? (fun frame => pa == page_align (get_trap_pa frame)) := by
  induction l with
  | nil => rfl
  | cons a t ih =>
    by_cases h : (pa == page_align (get_trap_pa a)) = true
    · rw [@List.find?_cons_of_pos _ (fun frame => pa == page_align (get_trap_pa frame)) a t h]
      simp [select_frame, h]
    · rw [@List.find?_cons_of_neg _ (fun frame => pa == page_align (get_trap_pa frame)) a t h]
      simp only [select_frame]
      rw [if_neg h]
      exact ih

lemma mem_build_frame_va_map {frames : List LogEvent} {p : Nat} {fr : LogEvent} :
    fr ∈ build_frame_va_map frames p ↔ fr ∈ frames ∧ page_align (get_frame_va fr) = p := by
  simp [build_frame_va_map, List.mem_filter]

lemma select_frame_eq_none_iff {l : List LogEvent} {pa : Nat} :
    select_frame l pa = none ↔ ∀ frame ∈ l, page_align (get_trap_pa frame) ≠ pa := by
  rw [select_frame_eq_find, List.find?_eq_none]
  constructor
  · intro h frame hm he
    have h4 := h frame hm
    rw [he] at h4
    exact h4 (by simp)
  · intro h frame hm hp
    simp only [beq_iff_eq] at hp
    exact h frame hm hp.symm

lemma select_frame_eq_some_iff {l : List LogEvent} {pa : Nat} {fr : LogEvent} :
    select_frame l pa = some fr ↔
      page_align (get_trap_pa fr) = pa ∧
      ∃ earlier later, l = earlier ++ fr :: later ∧
        ∀ x ∈ earlier, page_align (get_trap_pa x) ≠ pa := by
  rw [select_frame_eq_find, List.find?_eq_some]
  constructor
  · rintro ⟨hp, earlier, later, rfl, hall⟩
    simp only [beq_iff_eq] at hp
    refine ⟨hp.symm, earlier, later, rfl, ?_⟩
    intro x hx he
    have h6 := hall x hx
    rw [he] at h6
    simp at h6
  · rintro ⟨hp, earlier, later, rfl, hall⟩
    refine ⟨by rw [hp]; simp, earlier, later, rfl, ?_⟩
    intro x hx
    have h7 := hall x hx
    simp only [Bool.not_eq_true', beq_eq_false_iff_ne]
    intro he
    exact h7 he.symm

lemma select_frame_mem_of_eq_some {l : List LogEvent} {pa : Nat} {fr : LogEvent}
    (h : select_frame l pa = some fr) :
    fr ∈ l ∧ page_align (get_trap_pa fr) = pa := by
  rw [select_frame_eq_some_iff] at h
  obtain ⟨hp, earlier, later, rfl, _⟩ := h
  exact ⟨by simp, hp⟩

lemma select_frame_isSome_of_mem {l : List LogEvent} {pa : Nat} {fr0 : LogEvent}
    (h1 : fr0 ∈ l) (h2 : page_align (get_trap_pa fr0) = pa) :
    ∃ fr, select_frame l pa = some fr := by
  have h3 : ((l.find? fun frame => pa == page_align (get_trap_pa frame)).isSome) = true :=
    List.find?_isSome.mpr ⟨fr0, h1, by simp [h2]⟩
  rw [select_frame_eq_find]
  exact Option.isSome_iff_exists.mp h3

lemma match_frames_cons (fault : LogEvent) (rest frames foreign_frames : List LogEvent) :
    match_frames (fault :: rest) frames foreign_frames =
      let va_page := page_align (get_fault_va fault)
      let pa_page := page_align (get_fault_pa fault)
      let r := match_frames rest frames foreign_frames
      match select_frame (build_frame_va_map frames va_page) pa_page with
      | some frame => ⟨(va_page, frame.dumpFile) :: r.results, r.unresolved, r.foreign_resolved⟩
      | none =>
        match select_frame (build_frame_va_map foreign_frames va_page) pa_page with
        | some frame =>
          ⟨(va_page, frame.dumpFile) :: r.results, r.unresolved, r.foreign_resolved + 1⟩
        | none => ⟨r.results, r.unresolved + 1, r.foreign_resolved⟩ := rfl

lemma select_none_of_no_match {pool : List LogEvent} {fault : LogEvent}
    (h : ∀ fr ∈ pool,
      ¬(page_align (get_frame_va fr) = page_align (get_fault_va fault) ∧
        page_align (get_trap_pa fr) = page_align (get_fault_pa fault))) :
    select_frame (build_frame_va_map pool (page_align (get_fault_va fault)))
      (page_align (get_fault_pa fault)) = none := by
  rw [select_frame_eq_none_iff]
  intro fr hfr hpa
  have h2 := mem_build_frame_va_map.mp hfr
  exact h fr h2.1 ⟨h2.2, hpa⟩

lemma match_frames_cons_unmatched (fault : LogEvent) (rest frames foreign_frames : List LogEvent)
    (h1 : ∀ fr ∈ frames,
      ¬(page_align (get_frame_va fr) = page_align (get_fault_va fault) ∧
        page_align (get_trap_pa fr) = page_align (get_fault_pa fault)))
    (h2 : ∀ fr ∈ foreign_frames,
      ¬(page_align (get_frame_va fr) = page_align (get_fault_va fault) ∧
        page_align (get_trap_pa fr) = page_align (get_fault_pa fault))) :
    match_frames (fault :: rest) frames foreign_frames =
      ⟨(match_frames rest frames foreign_frames).results,
       (match_frames rest frames foreign_frames).unresolved + 1,
       (match_frames rest frames foreign_frames).foreign_resolved⟩ := by
  rw [match_frames_cons]
  simp only [select_none_of_no_match h1, select_none_of_no_match h2]

lemma hexDigitVal_isSome {c : Char} (h : isLowerHexDigit c = true) :
    ∃ d, hexDigitVal c = some d := by
  have h2 : List.elem c hexCharsLower = true := h
  have hall : ∀ x ∈ hexCharsLower, (hexDigitVal x).isSome = true := by decide
  exact Option.isSome_iff_exists.mp (hall c (List.elem_iff.mp h2))

lemma parseHexCore_isSome {l : List Char} (h : l.all isLowerHexDigit = true) (a : Nat) :
    ∃ v, parseHexCore (some a) l = some v := by
  induction l generalizing a with
  | nil => exact ⟨a, rfl⟩
  | cons c rest ih =>
    simp only [List.all_cons, Bool.and_eq_true] at h
    obtain ⟨d, hd⟩ := hexDigitVal_isSome h.1
    simpa only [parseHexCore, hd] using ih h.2 (a * 16 + d)

lemma parseHexNat_isSome_of_all_hex {s : String}
    (hne : s.data ≠ []) (h : s.data.all isLowerHexDigit = true) :
    ∃ v, parseHexNat s = some v := by
  unfold parseHexNat
  rw [if_neg hne]
  exact parseHexCore_isSome h 0

lemma generate_ptxed_from_cons (b : Bool) (line : String) (rest : List String) :
    generate_ptxed_from b (line :: rest) =
      if line_yields b line then
        match parseHexNat (pyTake line 16) with
        | none => none
        | some v => (generate_ptxed_from (ptxed_next_flag b line) rest).map (fun l => v :: l)
      else generate_ptxed_from (ptxed_next_flag b line) rest := rfl

lemma flag_persists (line : String)
    (h : (pyTake line 16).data.all isLowerHexDigit = false) :
    ptxed_next_flag true line = true := by
  unfold ptxed_next_flag
  simp [line_yields, h]

lemma skip_line_no_yield (line : String) (rest : List String)
    (h : (pyTake line 16).data.all isLowerHexDigit = false) :
    generate_ptxed_from true (line :: rest) = generate_ptxed_from true rest := by
  rw [generate_ptxed_from_cons, flag_persists line h,
    if_neg (by simp [line_yields, h])]

lemma marker_sets_flag : ptxed_next_flag false ( "[block]\n") = true := by decide

lemma generate_ptxed_two (line : String) :
    generate_ptxed [ "[block]\n", line] = generate_ptxed_from true [line] := by
  rw [generate_ptxed, generate_ptxed_from_cons, if_neg (by decide), marker_sets_flag]

/- ------------------------------------------------------------------ -/
/- Claim theorems                                                     -/
/- ------------------------------------------------------------------ -/

/-- C1: for every fault list and pair of frame pools, if a fault's
page-aligned virtual and physical addresses both match a frame in the
own-process pool, `match_frames` resolves that fault to an own-process
frame (it appends that frame's dump file for the fault's virtual page),
and the foreign pool is not consulted for it: neither the
foreign-resolved counter nor the unresolved counter moves. -/
theorem own_pool_preferred
    (fault : LogEvent) (rest frames foreign_frames : List LogEvent) (fr0 : LogEvent)
    (hmem : fr0 ∈ frames)
    (hva : page_align (get_frame_va fr0) = page_align (get_fault_va fault))
    (hpa : page_align (get_trap_pa fr0) = page_align (get_fault_pa fault)) :
    ∃ frame ∈ frames,
      page_align (get_frame_va frame) = page_align (get_fault_va fault) ∧
      page_align (get_trap_pa frame) = page_align (get_fault_pa fault) ∧
      (match_frames (fault :: rest) frames foreign_frames).results =
        (page_align (get_fault_va fault), frame.dumpFile) ::
          (match_frames rest frames foreign_frames).results ∧
      (match_frames (fault :: rest) frames foreign_frames).foreign_resolved =
        (match_frames rest frames foreign_frames).foreign_resolved ∧
      (match_frames (fault :: rest) frames foreign_frames).unresolved =
        (match_frames rest frames foreign_frames).unresolved := by
  have hbucket : fr0 ∈ build_frame_va_map frames (page_align (get_fault_va fault)) :=
    mem_build_frame_va_map.mpr ⟨hmem, hva⟩
  obtain ⟨fr, hsel⟩ := select_frame_isSome_of_mem hbucket hpa
  have hfrmem := select_frame_mem_of_eq_some hsel
  have hfr_frames := mem_build_frame_va_map.mp hfrmem.1
  refine ⟨fr, hfr_frames.1, hfr_frames.2, hfrmem.2, ?_, ?_, ?_⟩ <;>
    rw [match_frames_cons] <;> simp only [hsel]

/-- Witness for C1 at a concrete fault and own-process frame. -/
theorem own_pool_preferred_witness :
    ∃ frame ∈ [(⟨ "execframe", 5, 0x7000, 0x9000, "f1"⟩ : LogEvent)],
      page_align (get_frame_va frame) =
        page_align (get_fault_va ⟨ "pagefault", 5, 0x7123, 0x9456, ""⟩) ∧
      page_align (get_trap_pa frame) =
        page_align (get_fault_pa ⟨ "pagefault", 5, 0x7123, 0x9456, ""⟩) ∧
      (match_frames [⟨ "pagefault", 5, 0x7123, 0x9456, ""⟩]
        [⟨ "execframe", 5, 0x7000, 0x9000, "f1"⟩]
        [⟨ "execframe", 7, 0x7000, 0x9000, "f2"⟩]).results =
        (page_align (get_fault_va ⟨ "pagefault", 5, 0x7123, 0x9456, ""⟩),
          frame.dumpFile) ::
          (match_frames [] [⟨ "execframe", 5, 0x7000, 0x9000, "f1"⟩]
            [⟨ "execframe", 7, 0x7000, 0x9000, "f2"⟩]).results ∧
      (match_frames [⟨ "pagefault", 5, 0x7123, 0x9456, ""⟩]
        [⟨ "execframe", 5, 0x7000, 0x9000, "f1"⟩]
        [⟨ "execframe", 7, 0x7000, 0x9000, "f2"⟩]).foreign_resolved =
        (match_frames [] [⟨ "execframe", 5, 0x7000, 0x9000, "f1"⟩]
          [⟨ "execframe", 7, 0x7000, 0x9000, "f2"⟩]).foreign_resolved ∧
      (match_frames [⟨ "pagefault", 5, 0x7123, 0x9456, ""⟩]
        [⟨ "execframe", 5, 0x7000, 0x9000, "f1"⟩]
        [⟨ "execframe", 7, 0x7000, 0x9000, "f2"⟩]).unresolved =
        (match_frames [] [⟨ "execframe", 5, 0x7000, 0x9000, "f1"⟩]
          [⟨ "execframe", 7, 0x7000, 0x9000, "f2"⟩]).unresolved :=
  own_pool_preferred ⟨ "pagefault", 5, 0x7123, 0x9456, ""⟩ []
    [⟨ "execframe", 5, 0x7000, 0x9000, "f1"⟩]
    [⟨ "execframe", 7, 0x7000, 0x9000, "f2"⟩]
    ⟨ "execframe", 5, 0x7000, 0x9000, "f1"⟩
    (by decide) (by decide) (by decide)

/-- C2: for every process-identity (CR3) value that is not page aligned,
`get_ptxed_cmdline` signals the error by returning `none`, uniformly in
the log contents, the dump directory and every other argument — so no
event classification and no resolution work can influence (or be
influenced by) the outcome. -/
theorem unaligned_cr3_rejected (analysis_dir : String) (cr3_value : Nat) (pt_stream : String)
    (use_blocks : Bool) (codemon_out : List LogEvent) (fs : String → Option Nat)
    (h : is_page_aligned cr3_value = false) :
    get_ptxed_cmdline analysis_dir cr3_value pt_stream use_blocks codemon_out fs = none := by
  simp [get_ptxed_cmdline, h]

/-- Witness for C2 at the unaligned CR3 value 5 and a non-trivial log. -/
theorem unaligned_cr3_rejected_witness :
    is_page_aligned 5 = false ∧
      get_ptxed_cmdline "analysis" 5 "pt" false
        [⟨ "pagefault", 5, 0x7123, 0x9456, ""⟩] (fun _ => some 4096) = none :=
  ⟨by decide,
    unaligned_cr3_rejected "analysis" 5 "pt" false
      [⟨ "pagefault", 5, 0x7123, 0x9456, ""⟩] (fun _ => some 4096) (by decide)⟩

/-- C4: a fault whose page-aligned address pair matches no frame in either
pool produces no mapping entry and bumps the unresolved counter by exactly
one (no error is possible: `match_frames` is total); moreover a fully
unmatched run returns the empty mapping with `unresolved` equal to the
number of faults. -/
theorem unmatched_fault_unresolved :
    (∀ (fault : LogEvent) (rest frames foreign_frames : List LogEvent),
      (∀ fr ∈ frames,
        ¬(page_align (get_frame_va fr) = page_align (get_fault_va fault) ∧
          page_align (get_trap_pa fr) = page_align (get_fault_pa fault))) →
      (∀ fr ∈ foreign_frames,
        ¬(page_align (get_frame_va fr) = page_align (get_fault_va fault) ∧
          page_align (get_trap_pa fr) = page_align (get_fault_pa fault))) →
      (match_frames (fault :: rest) frames foreign_frames).results =
        (match_frames rest frames foreign_frames).results ∧
      (match_frames (fault :: rest) frames foreign_frames).unresolved =
        (match_frames rest frames foreign_frames).unresolved + 1 ∧
      (match_frames (fault :: rest) frames foreign_frames).foreign_resolved =
        (match_frames rest frames foreign_frames).foreign_resolved) ∧
    (∀ (faults frames foreign_frames : List LogEvent),
      (∀ fault ∈ faults, ∀ fr ∈ frames ++ foreign_frames,
        ¬(page_align (get_frame_va fr) = page_align (get_fault_va fault) ∧
          page_align (get_trap_pa fr) = page_align (get_fault_pa fault))) →
      (match_frames faults frames foreign_frames).results = [] ∧
      (match_frames faults frames foreign_frames).unresolved = faults.length) := by
  constructor
  · intro fault rest frames foreign_frames h1 h2
    rw [match_frames_cons_unmatched fault rest frames foreign_frames h1 h2]
    exact ⟨rfl, rfl, rfl⟩
  · intro faults frames foreign_frames hall
    induction faults with
    | nil => exact ⟨rfl, rfl⟩
    | cons fault rest ih =>
      have h1 : ∀ fr ∈ frames,
          ¬(page_align (get_frame_va fr) = page_align (get_fault_va fault) ∧
            page_align (get_trap_pa fr) = page_align (get_fault_pa fault)) :=
        fun fr hfr => hall fault (by simp) fr (List.mem_append_left _ hfr)
      have h2 : ∀ fr ∈ foreign_frames,
          ¬(page_align (get_frame_va fr) = page_align (get_fault_va fault) ∧
            page_align (get_trap_pa fr) = page_align (get_fault_pa fault)) :=
        fun fr hfr => hall fault (by simp) fr (List.mem_append_right _ hfr)
      have ih2 := ih (fun f hf => hall f (List.mem_cons_of_mem _ hf))
      rw [match_frames_cons_unmatched fault rest frames foreign_frames h1 h2]
      exact ⟨ih2.1, by simp [ih2.2]⟩

/-- Witness for C4 at a concrete fault matching neither pool. -/
theorem unmatched_fault_unresolved_witness :
    (match_frames [(⟨ "pagefault", 5, 0x7123, 0x9456, ""⟩ : LogEvent)]
      [⟨ "execframe", 5, 0x8000, 0x9000, "f1"⟩]
      [⟨ "execframe", 7, 0x7000, 0xa000, "f2"⟩]).results =
      (match_frames [] [⟨ "execframe", 5, 0x8000, 0x9000, "f1"⟩]
        [⟨ "execframe", 7, 0x7000, 0xa000, "f2"⟩]).results ∧
    (match_frames [(⟨ "pagefault", 5, 0x7123, 0x9456, ""⟩ : LogEvent)]
      [⟨ "execframe", 5, 0x8000, 0x9000, "f1"⟩]
      [⟨ "execframe", 7, 0x7000, 0xa000, "f2"⟩]).unresolved =
      (match_frames [] [⟨ "execframe", 5, 0x8000, 0x9000, "f1"⟩]
        [⟨ "execframe", 7, 0x7000, 0xa000, "f2"⟩]).unresolved + 1 ∧
    (match_frames [(⟨ "pagefault", 5, 0x7123, 0x9456, ""⟩ : LogEvent)]
      [⟨ "execframe", 5, 0x8000, 0x9000, "f1"⟩]
      [⟨ "execframe", 7, 0x7000, 0xa000, "f2"⟩]).foreign_resolved =
      (match_frames [] [⟨ "execframe", 5, 0x8000, 0x9000, "f1"⟩]
        [⟨ "execframe", 7, 0x7000, 0xa000, "f2"⟩]).foreign_resolved :=
  unmatched_fault_unresolved.1 ⟨ "pagefault", 5, 0x7123, 0x9456, ""⟩ []
    [⟨ "execframe", 5, 0x8000, 0x9000, "f1"⟩]
    [⟨ "execframe", 7, 0x7000, 0xa000, "f2"⟩]
    (by decide) (by decide)

/-- C8: `select_frame` returns `none` exactly when no frame of the group
has the target page-aligned physical address, and returns `some frame`
exactly when `frame` matches and is the first match in insertion order
(every earlier frame of the group fails the physical-page test). -/
theorem select_frame_first_match (frames : List LogEvent) (pa : Nat) :
    (select_frame frames pa = none ↔
      ∀ frame ∈ frames, page_align (get_trap_pa frame) ≠ pa) ∧
    (∀ frame, select_frame frames pa = some frame ↔
      page_align (get_trap_pa frame) = pa ∧
      ∃ earlier later, frames = earlier ++ frame :: later ∧
        ∀ x ∈ earlier, page_align (get_trap_pa x) ≠ pa) :=
  ⟨select_frame_eq_none_iff, fun _ => select_frame_eq_some_iff⟩

/-- Witness for C8: on a two-frame group whose frames share the physical
page, the earlier frame wins. -/
theorem select_frame_first_match_witness :
    select_frame
      [(⟨ "execframe", 5, 0x7000, 0x9000, "f1"⟩ : LogEvent),
       ⟨ "execframe", 5, 0x7000, 0x9fff, "f2"⟩] 0x9000 =
      some ⟨ "execframe", 5, 0x7000, 0x9000, "f1"⟩ :=
  ((select_frame_first_match
      [⟨ "execframe", 5, 0x7000, 0x9000, "f1"⟩, ⟨ "execframe", 5, 0x7000, 0x9fff, "f2"⟩]
      0x9000).2 ⟨ "execframe", 5, 0x7000, 0x9000, "f1"⟩).mpr
    ⟨by decide,
      [], [⟨ "execframe", 5, 0x7000, 0x9fff, "f2"⟩], rfl, by decide⟩

/-- C9: `match_frames` classifies each fault exactly once: the number of
mapping entries plus the unresolved count equals the number of input
faults, and the foreign-resolved count never exceeds the number of
mapping entries. -/
theorem resolution_conservation (faults frames foreign_frames : List LogEvent) :
    (match_frames faults frames foreign_frames).results.length +
      (match_frames faults frames foreign_frames).unresolved = faults.length ∧
    (match_frames faults frames foreign_frames).foreign_resolved ≤
      (match_frames faults frames foreign_frames).results.length := by
  induction faults with
  | nil => exact ⟨rfl, Nat.le_refl 0⟩
  | cons fault rest ih =>
    rw [match_frames_cons]
    cases h1 : select_frame (build_frame_va_map frames (page_align (get_fault_va fault)))
        (page_align (get_fault_pa fault)) with
    | some frame =>
      simp only [h1, List.length_cons]
      have hx := ih.1
      have hy := ih.2
      exact ⟨by omega, Nat.le_succ_of_le hy⟩
    | none =>
      cases h2 : select_frame (build_frame_va_map foreign_frames (page_align (get_fault_va fault)))
          (page_align (get_fault_pa fault)) with
      | some frame =>
        simp only [h1, h2, List.length_cons]
        have hx := ih.1
        have hy := ih.2
        exact ⟨by omega, Nat.succ_le_succ hy⟩
      | none =>
        simp only [h1, h2, List.length_cons]
        have hx := ih.1
        have hy := ih.2
        exact ⟨by omega, hy⟩

/-- C3: the manifest loop emits, for each resolved mapping entry, either
both of its argument strings or nothing at all: an entry contributes
`["--raw", file:0xaddr]` exactly when the dump file exists with size 4096
bytes (and its basename is not the `(null)` sentinel); an entry whose
file is missing or whose size differs from 4096 contributes no argument,
and never a partial one. -/
theorem raw_page_only_full_pages (analysis_dir : String) (fs : String → Option Nat)
    (mappings : List (Nat × String)) :
    (build_pages analysis_dir fs mappings).1 =
      mappings.flatMap (fun p =>
        if fs (pathName p.2) = some 4096 ∧ pathName p.2 ≠ "(null)" then
          [ "--raw", raw_page_arg analysis_dir p.2 p.1]
        else []) := by
  induction mappings with
  | nil => rfl
  | cons head rest ih =>
    obtain ⟨addr, fname⟩ := head
    rw [List.flatMap_cons]
    cases hfs : fs (pathName fname) with
    | none =>
      simp only [build_pages, hfs]
      rw [if_neg (by simp [hfs])]
      simpa using ih
    | some size =>
      by_cases hc : pathName fname ≠ "(null)" ∧ size = 4096
      · simp only [build_pages, hfs]
        rw [if_pos hc, if_pos ⟨by rw [hc.2], hc.1⟩]
        simpa using ih
      · simp only [build_pages, hfs]
        rw [if_neg hc, if_neg (fun hcon => hc ⟨hcon.2, Option.some.inj hcon.1⟩)]
        simpa using ih

/-- C10: a resolved mapping entry whose dump-file basename is the literal
sentinel `(null)` contributes neither a raw-page argument nor a warning,
even when a file of that name exists in the dump directory with size
exactly 4096 bytes. -/
theorem null_sentinel_dropped (analysis_dir : String) (fs : String → Option Nat)
    (addr : Nat) (fname : String) (rest : List (Nat × String))
    (hname : pathName fname = "(null)")
    (hfs : fs ("(null)") = some 4096) :
    build_pages analysis_dir fs ((addr, fname) :: rest) =
      build_pages analysis_dir fs rest := by
  simp only [build_pages, hname, hfs]
  rw [if_neg (fun hcon => hcon.1 rfl)]

/-- Witness for C10 at a concrete entry named `(null)` whose file exists
with size 4096. -/
theorem null_sentinel_dropped_witness :
    build_pages "analysis" (fun n => if n = "(null)" then some 4096 else none)
      [(0x7000, "dir/(null)")] =
      build_pages "analysis" (fun n => if n = "(null)" then some 4096 else none) [] :=
  null_sentinel_dropped "analysis" (fun n => if n = "(null)" then some 4096 else none)
    0x7000 "dir/(null)" [] (by decide) (by decide)

/-- C7: Format A normalization: exactly the records tagged
`block_executed` contribute an output value — their data field parsed as
hexadecimal — in emission order; records with any other tag contribute
nothing.  The hypothesis restricts to streams whose `block_executed`
records carry hexadecimal data fields (otherwise the Python `int` call
raises, modelled by `none`). -/
theorem format_a_blocks (records : List BlockRecord)
    (h : ∀ e ∈ records, e.event = "block_executed" → (parseHexNat e.data).isSome) :
    generate_ipt_blocks records =
      some (records.filterMap (fun e =>
        if e.event = "block_executed" then parseHexNat e.data else none)) := by
  induction records with
  | nil => rfl
  | cons e rest ih =>
    have hrest := ih (fun x hx => h x (List.mem_cons_of_mem _ hx))
    by_cases he : e.event = "block_executed"
    · obtain ⟨v, hv⟩ := Option.isSome_iff_exists.mp (h e (by simp) he)
      simp only [generate_ipt_blocks, List.filterMap_cons, he, hv, beq_self_eq_true,
        if_true, hrest]
      rfl
    · simp only [generate_ipt_blocks, List.filterMap_cons]
      rw [if_neg (by simpa using he), if_neg he]
      exact hrest

/-- Witness for C7 at the record stream from the spec's test vector. -/
theorem format_a_blocks_witness :
    generate_ipt_blocks [⟨ "block_executed", "401000"⟩, ⟨ "other", "zz"⟩] =
      some [0x401000] := by
  rw [format_a_blocks [⟨ "block_executed", "401000"⟩, ⟨ "other", "zz"⟩] (by decide)]
  decide

/-- Counterexample to C6 as stated: after a marker line, the code also
yields for the two-character all-lowercase-hex line "ff" (possible as the
final line of a stream that does not end in a newline), although that
line does not consist of a 16-character hexadecimal prefix; C6 predicts
that such a line yields nothing, yet the value 0xff is produced. -/
theorem short_hex_line_yields :
    generate_ptxed [ "[block]\n", "ff"] = some [0xff] := by decide

/-- C6 amended: a line following the marker line yields a value iff it is
nonempty and its first min(16, length) characters are all lowercase
hexadecimal digits; the yielded value is that prefix parsed as
hexadecimal (for lines of at least 16 characters this is exactly the
fixed-width 16-character prefix); a line whose prefix test fails yields
nothing. -/
theorem marker_then_line (line : String) :
    ((pyTake line 16).data.all isLowerHexDigit = true → line.data ≠ [] →
      ∃ v, parseHexNat (pyTake line 16) = some v ∧
        generate_ptxed [ "[block]\n", line] = some [v]) ∧
    ((pyTake line 16).data.all isLowerHexDigit = false →
      generate_ptxed [ "[block]\n", line] = some []) := by
  constructor
  · intro hall hne
    have hne16 : (pyTake line 16).data ≠ [] := by
      cases hd : line.data with
      | nil => exact absurd hd hne
      | cons c cs => simp [pyTake, hd]
    obtain ⟨v, hv⟩ := parseHexNat_isSome_of_all_hex hne16 hall
    refine ⟨v, hv, ?_⟩
    rw [generate_ptxed_two, generate_ptxed_from_cons,
      if_pos (by simp [line_yields, hall]), hv]
    rfl
  · intro hall
    rw [generate_ptxed_two, skip_line_no_yield line [] hall]
    rfl

/-- Witness for C6 (amended) at the spec's Format B test line. -/
theorem marker_then_line_witness :
    ∃ v, parseHexNat (pyTake ( "0000000000401000 instr\n") 16) = some v ∧
      generate_ptxed [ "[block]\n", "0000000000401000 instr\n"] = some [v] :=
  (marker_then_line ( "0000000000401000 instr\n")).1 (by decide) (by decide)

/-- Counterexample to C5 as stated: the "expecting address line" flag is
not reset by a failed match.  After the marker line and the non-matching
line "zz!\n", C5 predicts that the later hexadecimal line (with no fresh
marker in between) yields nothing, so the run should produce `some []`;
the code instead yields its address 0x401000. -/
theorem stale_marker_still_yields :
    generate_ptxed [ "[block]\n", "zz!\n", "0000000000401000 instr\n"] =
      some [0x401000] := by decide

/-- C5 amended: the flag is set by a marker line and cleared only by a
successful parse, not by a failed match: a line whose 16-character prefix
test fails is skipped with the flag left set (so a later all-hex line
still yields without a fresh marker), and a marker line followed by only
a non-matching line yields no value and does not raise. -/
theorem block_flag_persistence :
    (∀ (line : String) (rest : List String),
      (pyTake line 16).data.all isLowerHexDigit = false →
      generate_ptxed_from true (line :: rest) = generate_ptxed_from true rest) ∧
    (∀ line : String,
      (pyTake line 16).data.all isLowerHexDigit = false →
      generate_ptxed [ "[block]\n", line] = some []) := by
  constructor
  · exact skip_line_no_yield
  · intro line h
    rw [generate_ptxed_two, skip_line_no_yield line [] h]
    rfl

/-- Witness for C5 (amended): the non-matching line "zz!\n" is skipped
with the flag still set. -/
theorem block_flag_persistence_witness :
    generate_ptxed_from true [ "zz!\n", "0000000000401000 instr\n"] =
      generate_ptxed_from true [ "0000000000401000 instr\n"] :=
  block_flag_persistence.1 ( "zz!\n") [ "0000000000401000 instr\n"] (by decide)

end IptDisasm
